import Mathlib

/-!
Shallow embedding of the xproli-backend redirect/click-tracking/analytics core.

The embedding follows the TypeScript source:
  * `src/routes/redirect.ts` — `trackClickEvent`, the `/:domain/:slug` and
    `/:slug` redirect handlers (expiry gate, password gate, fire-and-forget
    tracking, redirect);
  * `src/routes/analytics.ts` — the per-link analytics aggregation
    (`GET /links/:linkId`) and manual click recording (`POST /clicks`);
  * the link-listing route (`GET /`) that embeds per-link stats and
    `recentClicks: clicks.slice(0, 5)`.

Conventions: MongoDB collections are modelled as append-only Lean lists in
insertion order; `findOne` is `List.find?`; instants are integers; JS
`undefined` for an optional string field is `Option.none`, and the JS
falsiness of the empty string is modelled explicitly (`s = ""` checks next to
each `||` in the source).  External fallible operations (geo-IP lookup,
user-agent parsing, persistence) are parameters returning `Except`.
-/

namespace Xproli

/-! ### Data model -/

structure Link where
  id : Nat
  ownerId : Nat := 0
  domain : String := "xpro.li"
  slug : String
  destinationUrl : String
  expiresAt : Option Int := none
  passwordProtected : Bool := false
  password : Option String := none
  deriving Repr, DecidableEq

structure ClickEvent where
  linkId : Nat
  timestamp : Int := 0
  ip : String := "Unknown"
  country : String := ""
  city : String := ""
  region : String := ""
  device : String := ""
  deviceType : String := ""
  deviceVendor : String := ""
  deviceModel : String := ""
  browser : String := ""
  browserName : String := ""
  browserVersion : String := ""
  os : String := ""
  osName : String := ""
  osVersion : String := ""
  referrer : String := ""
  utmSource : Option String := none
  utmMedium : Option String := none
  utmCampaign : Option String := none
  utmTerm : Option String := none
  utmContent : Option String := none
  utmParams : List (String × String) := []
  queryParams : List (String × String) := []
  language : String := ""
  screenSize : String := ""
  deriving Repr, DecidableEq

/-- The projection mongoose applies to `Link` query results: the schema
declares `password: { type: String, select: false }`, so the field is absent
(`undefined`) on every returned document unless a query re-selects it with
`.select(+password)` — which none of the link lookups in this code base
does (only the User login does, on the User model). -/
def selectLink (l : Link) : Link := { l with password := none }

/-- `Link.findOne({ domain, slug })` over the link collection; the returned
document carries no `password` field (schema `select: false`). -/
def findOneByDomainSlug (links : List Link) (domain slug : String) : Option Link :=
  (links.find? (fun l => l.domain == domain && l.slug == slug)).map selectLink

/-- `Link.findOne({ slug })` over the link collection; the returned document
carries no `password` field (schema `select: false`). -/
def findOneBySlug (links : List Link) (slug : String) : Option Link :=
  (links.find? (fun l => l.slug == slug)).map selectLink

/-- `Link.findById(id)` over the link collection; the returned document
carries no `password` field (schema `select: false`). -/
def findById (links : List Link) (id : Nat) : Option Link :=
  (links.find? (fun l => l.id == id)).map selectLink

/-! ### Request model -/

structure Req where
  xForwardedFor : Option String := none
  xRealIp : Option String := none
  remoteAddress : Option String := none
  userAgent : Option String := none
  referer : Option String := none
  acceptLanguage : Option String := none
  viewportWidth : Option String := none
  viewportHeight : Option String := none
  query : List (String × String) := []
  deriving Repr, DecidableEq

/-- Lookup of a query parameter (`req.query[key]`). -/
def Req.queryGet (req : Req) (key : String) : Option String :=
  (req.query.find? (fun p => p.1 == key)).map (fun p => p.2)

/-- JS `x || fallback` on an optional string: `undefined` and `""` are falsy. -/
def orElseNonEmpty (candidate : Option String) (fallback : String) : String :=
  match candidate with
  | some s => if s = "" then fallback else s
  | none => fallback

/-- IP resolution of `trackClickEvent`:
`x-forwarded-for` first entry (trimmed), else `x-real-ip`, else
`socket.remoteAddress`, else `"Unknown"`. -/
def resolveIp (req : Req) : String :=
  orElseNonEmpty (req.xForwardedFor.map (fun s => ((s.splitOn ",").headD "").trim))
    (orElseNonEmpty req.xRealIp
      (orElseNonEmpty req.remoteAddress "Unknown"))

/-! ### Geo/Device Resolver -/

structure GeoInfo where
  country : String
  city : String
  region : String
  deriving Repr, DecidableEq

/-- JS `x || "Unknown"` for a string field. -/
def orUnknown (s : String) : String := if s = "" then "Unknown" else s

/-- The guard `ip && ip !== "::1" && !ip.startsWith("127.0.0.1")`, negated:
a falsy (empty) or loopback address takes the local-development branch. -/
def isLocalIp (ip : String) : Bool :=
  ip == "" || ip == "::1" || ip.startsWith "127.0.0.1"

/-- Folding a raw `geoip.lookup` result into the geo triple, with `"Unknown"`
defaults for a null result or unresolved fields. -/
def geoFromLookup (res : Option GeoInfo) : GeoInfo :=
  match res with
  | some g => ⟨orUnknown g.country, orUnknown g.city, orUnknown g.region⟩
  | none => ⟨"Unknown", "Unknown", "Unknown"⟩

/-- The geo-resolution block of `trackClickEvent`: local addresses map to the
fixed development triple without consulting the lookup; otherwise the
(fallible) lookup runs and unresolved data degrades to `"Unknown"`. -/
def resolveGeoE (geoLookup : String → Except String (Option GeoInfo)) (ip : String) :
    Except String GeoInfo :=
  if isLocalIp ip then Except.ok ⟨"Local", "Development", "Local"⟩
  else (geoLookup ip).map geoFromLookup

/-- Result of `UAParser.getResult()`; `""` stands for an undefined field. -/
structure UAResult where
  deviceType : String := ""
  deviceVendor : String := ""
  deviceModel : String := ""
  browserName : String := ""
  browserVersion : String := ""
  osName : String := ""
  osVersion : String := ""
  deriving Repr, DecidableEq

/-- Device description: `"{vendor} {type} {model}"` pieces when a device type
is present, else `"Desktop ({osName})"`, else `"Unknown"`. -/
def deviceInfoOf (r : UAResult) : String :=
  if r.deviceType ≠ "" then
    let d1 := if r.deviceVendor ≠ "" then r.deviceVendor ++ " " ++ r.deviceType else r.deviceType
    if r.deviceModel ≠ "" then d1 ++ " " ++ r.deviceModel else d1
  else if r.osName ≠ "" then "Desktop (" ++ r.osName ++ ")"
  else "Unknown"

/-- Browser description: `` `${name} ${version || ""}` `` or `"Unknown"`. -/
def browserInfoOf (r : UAResult) : String :=
  if r.browserName ≠ "" then r.browserName ++ " " ++ r.browserVersion else "Unknown"

/-- OS description: `` `${name} ${version || ""}` `` or `"Unknown"`. -/
def osInfoOf (r : UAResult) : String :=
  if r.osName ≠ "" then r.osName ++ " " ++ r.osVersion else "Unknown"

/-- Every query key prefixed `utm_`, with the prefix stripped. -/
def utmParamsOf (query : List (String × String)) : List (String × String) :=
  (query.filter (fun p => p.1.startsWith "utm_")).map (fun p => (p.1.drop 4, p.2))

/-- Association-list lookup (`utmParams.source` and friends). -/
def alistGet (l : List (String × String)) (k : String) : Option String :=
  (l.find? (fun p => p.1 == k)).map (fun p => p.2)

/-- `` req.headers["viewport-width"] ? `${w}x${h}` : "Unknown" ``. -/
def screenSizeOf (req : Req) : String :=
  match req.viewportWidth with
  | some w =>
      if w = "" then "Unknown"
      else w ++ "x" ++ (match req.viewportHeight with | some h => h | none => "undefined")
  | none => "Unknown"

/-- The `ClickEvent.create({...})` record literal of `trackClickEvent`. -/
def buildClickEvent (geo : GeoInfo) (ua : UAResult) (req : Req) (link : Link)
    (now : Int) (ip : String) : ClickEvent :=
  let utm := utmParamsOf req.query
  { linkId := link.id
    ip := ip
    timestamp := now
    country := geo.country
    city := geo.city
    region := geo.region
    device := deviceInfoOf ua
    deviceType := if ua.deviceType = "" then "desktop" else ua.deviceType
    deviceVendor := orUnknown ua.deviceVendor
    deviceModel := orUnknown ua.deviceModel
    browser := browserInfoOf ua
    browserName := orUnknown ua.browserName
    browserVersion := orUnknown ua.browserVersion
    os := osInfoOf ua
    osName := orUnknown ua.osName
    osVersion := orUnknown ua.osVersion
    referrer := orElseNonEmpty req.referer "Direct"
    utmSource := alistGet utm "source"
    utmMedium := alistGet utm "medium"
    utmCampaign := alistGet utm "campaign"
    utmTerm := alistGet utm "term"
    utmContent := alistGet utm "content"
    utmParams := utm
    queryParams := req.query
    language := orElseNonEmpty req.acceptLanguage "Unknown"
    screenSize := screenSizeOf req }

/-- The external fallible operations `trackClickEvent` touches. -/
structure TrackEffects where
  geoLookup : String → Except String (Option GeoInfo)
  uaParse : String → Except String UAResult
  persist : ClickEvent → Except String Unit

/-- Body of `trackClickEvent` before its `try/catch`: resolve IP and geo,
parse the user agent, build the event, persist it.  Any failure of an
external operation short-circuits into `Except.error`. -/
def trackClickEventBody (eff : TrackEffects) (req : Req) (link : Link) (now : Int) :
    Except String ClickEvent :=
  match resolveGeoE eff.geoLookup (resolveIp req) with
  | Except.error e => Except.error e
  | Except.ok geo =>
    match eff.uaParse (match req.userAgent with | some s => s | none => "") with
    | Except.error e => Except.error e
    | Except.ok ua =>
      let ev := buildClickEvent geo ua req link now (resolveIp req)
      match eff.persist ev with
      | Except.error e => Except.error e
      | Except.ok _ => Except.ok ev

/-- `trackClickEvent`: the `try/catch` absorbs any failure into `null`. -/
def trackClickEvent (eff : TrackEffects) (req : Req) (link : Link) (now : Int) :
    Option ClickEvent :=
  match trackClickEventBody eff req link now with
  | Except.ok ev => some ev
  | Except.error _ => none

/-! ### Redirect Resolver -/

inductive RedirectResponse where
  | notFound
  | expired
  | passwordRequired
  | redirect (url : String)
  deriving Repr, DecidableEq

def statusCode : RedirectResponse → Nat
  | RedirectResponse.notFound => 404
  | RedirectResponse.expired => 410
  | RedirectResponse.passwordRequired => 401
  | RedirectResponse.redirect _ => 302

/-- JSON error payload sent with the response, as (status, message). -/
def jsonError : RedirectResponse → Option (String × String)
  | RedirectResponse.passwordRequired => some ("error", "Password required")
  | _ => none

/-- `link.expiresAt && link.expiresAt < new Date()` (strict comparison). -/
def isExpired (link : Link) (now : Int) : Bool :=
  match link.expiresAt with
  | some e => e < now
  | none => false

/-- The password gate: `!password || password !== link.password` negated.
A missing or empty query parameter fails; otherwise plaintext equality
against the stored password. -/
def passwordPasses (link : Link) (req : Req) : Bool :=
  match req.queryGet "password" with
  | none => false
  | some p => if p = "" then false else some p == link.password

/-- The `/:domain/:slug` redirect handler: lookup, expiry gate, password gate,
fire-and-forget tracking, redirect.  Returns the response and the click-event
store after the handler (one appended event when tracking succeeded). -/
def handleRedirectDomain (eff : TrackEffects) (links : List Link)
    (store : List ClickEvent) (domain slug : String) (req : Req) (now : Int) :
    RedirectResponse × List ClickEvent :=
  match findOneByDomainSlug links domain slug with
  | none => (RedirectResponse.notFound, store)
  | some link =>
      if isExpired link now then (RedirectResponse.expired, store)
      else if link.passwordProtected && !(passwordPasses link req) then
        (RedirectResponse.passwordRequired, store)
      else
        match trackClickEvent eff req link now with
        | some ev => (RedirectResponse.redirect link.destinationUrl, store ++ [ev])
        | none => (RedirectResponse.redirect link.destinationUrl, store)

/-- The `/:slug` redirect handler (slug-only lookup, same gates). -/
def handleRedirectSlug (eff : TrackEffects) (links : List Link)
    (store : List ClickEvent) (slug : String) (req : Req) (now : Int) :
    RedirectResponse × List ClickEvent :=
  match findOneBySlug links slug with
  | none => (RedirectResponse.notFound, store)
  | some link =>
      if isExpired link now then (RedirectResponse.expired, store)
      else if link.passwordProtected && !(passwordPasses link req) then
        (RedirectResponse.passwordRequired, store)
      else
        match trackClickEvent eff req link now with
        | some ev => (RedirectResponse.redirect link.destinationUrl, store ++ [ev])
        | none => (RedirectResponse.redirect link.destinationUrl, store)

/-! ### Analytics Aggregator

The aggregation in `GET /links/:linkId` (and its duplicate in the link
listing) folds the click list into JS objects acting as frequency maps:
`acc[key] = (acc[key] || 0) + 1`.  A JS object is modelled as an association
list; updating an existing key keeps its position, a new key is appended. -/

/-- One step of `acc[k] = (acc[k] || 0) + 1`. -/
def bump : List (String × Nat) → String → List (String × Nat)
  | [], k => [(k, 1)]
  | (k1, n) :: rest, k =>
      if k1 = k then (k1, n + 1) :: rest else (k1, n) :: bump rest k

/-- `clicks.reduce((acc, click) => {acc[keyOf click]++}, \x7b\x7d)`. -/
def breakdownBy (keyOf : ClickEvent → String) (clicks : List ClickEvent) :
    List (String × Nat) :=
  clicks.foldl (fun acc c => bump acc (keyOf c)) []

/-- Reading a count back out of the frequency map (`acc[k] || 0`). -/
def getCount : List (String × Nat) → String → Nat
  | [], _ => 0
  | (k1, n) :: rest, k => if k1 = k then n else getCount rest k

/-- Sum of all counts stored in a frequency map. -/
def valsSum (acc : List (String × Nat)) : Nat := (acc.map (fun p => p.2)).sum

def referrerKey (c : ClickEvent) : String :=
  if c.referrer = "" then "Direct" else c.referrer

def countryKey (c : ClickEvent) : String :=
  if c.country = "" then "Unknown" else c.country

def deviceKey (c : ClickEvent) : String := c.device

def browserKey (c : ClickEvent) : String := c.browser

def utmSourceKey (c : ClickEvent) : String :=
  match c.utmSource with
  | some s => if s = "" then "Direct" else s
  | none => "Direct"

def utmMediumKey (c : ClickEvent) : String :=
  match c.utmMedium with
  | some s => if s = "" then "None" else s
  | none => "None"

def utmCampaignKey (c : ClickEvent) : String :=
  match c.utmCampaign with
  | some s => if s = "" then "None" else s
  | none => "None"

def referrerBreakdown (clicks : List ClickEvent) : List (String × Nat) :=
  breakdownBy referrerKey clicks

def countryBreakdown (clicks : List ClickEvent) : List (String × Nat) :=
  breakdownBy countryKey clicks

def deviceBreakdown (clicks : List ClickEvent) : List (String × Nat) :=
  breakdownBy deviceKey clicks

def browserBreakdown (clicks : List ClickEvent) : List (String × Nat) :=
  breakdownBy browserKey clicks

def utmSourceBreakdown (clicks : List ClickEvent) : List (String × Nat) :=
  breakdownBy utmSourceKey clicks

def utmMediumBreakdown (clicks : List ClickEvent) : List (String × Nat) :=
  breakdownBy utmMediumKey clicks

def utmCampaignBreakdown (clicks : List ClickEvent) : List (String × Nat) :=
  breakdownBy utmCampaignKey clicks

def totalClicks (clicks : List ClickEvent) : Nat := clicks.length

/-- `new Set(clicks.map(c => c.country)).size` — raw, pre-defaulting values. -/
def uniqueCountries (clicks : List ClickEvent) : Nat :=
  (clicks.map (fun c => c.country)).dedup.length

def uniqueDevices (clicks : List ClickEvent) : Nat :=
  (clicks.map (fun c => c.device)).dedup.length

def uniqueBrowsers (clicks : List ClickEvent) : Nat :=
  (clicks.map (fun c => c.browser)).dedup.length

/-! ### Click lists returned to clients -/

/-- `ClickEvent.find({ linkId })` with no sort: store (insertion) order. -/
def clicksForLink (store : List ClickEvent) (linkId : Nat) : List ClickEvent :=
  store.filter (fun c => c.linkId == linkId)

/-- Descending insertion by timestamp, the effect of `.sort(-timestamp)`. -/
def insertDesc (c : ClickEvent) : List ClickEvent → List ClickEvent
  | [] => [c]
  | d :: rest => if d.timestamp < c.timestamp then c :: d :: rest else d :: insertDesc c rest

def sortByTimestampDesc (l : List ClickEvent) : List ClickEvent :=
  l.foldr insertDesc []

/-- Optional `{$gte: startDate, $lte: endDate}` window on `timestamp`. -/
def inWindow (range : Option (Int × Int)) (c : ClickEvent) : Bool :=
  match range with
  | some r => r.1 ≤ c.timestamp && c.timestamp ≤ r.2
  | none => true

/-- The `clicks` list of `GET /links/:linkId`:
`ClickEvent.find(query).sort(-timestamp)` then `.slice(0, 100)`. -/
def analyticsClicksList (store : List ClickEvent) (linkId : Nat)
    (range : Option (Int × Int)) : List ClickEvent :=
  (sortByTimestampDesc
    (store.filter (fun c => c.linkId == linkId && inWindow range c))).take 100

/-- The `recentClicks` list embedded per link by the listing route:
`ClickEvent.find({linkId})` (NO sort in the source) then `.slice(0, 5)`. -/
def listingRecentClicks (store : List ClickEvent) (linkId : Nat) : List ClickEvent :=
  (clicksForLink store linkId).take 5

/-! ### POST /clicks -/

structure ClickBody where
  linkId : Nat
  ip : Option String := none
  country : Option String := none
  city : Option String := none
  device : Option String := none
  browser : Option String := none
  os : Option String := none
  referrer : Option String := none
  utmSource : Option String := none
  utmMedium : Option String := none
  utmCampaign : Option String := none
  deriving Repr, DecidableEq

/-- Mongoose's required check for a String path (`required: true`): the
value must be present and non-empty. -/
def requiredStringOk (v : Option String) : Bool :=
  match v with
  | some s => !(s == "")
  | none => false

/-- The ClickEvent schema marks `ip`, `device`, `browser`, and `os` as
`required: true`; `ClickEvent.create` runs these validators and rejects a
document missing any of them with a ValidationError. -/
def clickBodyValid (b : ClickBody) : Bool :=
  requiredStringOk b.ip && requiredStringOk b.device
    && requiredStringOk b.browser && requiredStringOk b.os

/-- The document `ClickEvent.create({linkId, ip, country, city, device,
browser, os, referrer, utmSource, utmMedium, utmCampaign})` stores for a
body that passes validation; the schema fills `timestamp` with the creation
time, and absent optional fields stay absent (modelled as `""` for the plain
string fields). -/
def clickFromBody (b : ClickBody) (now : Int) : ClickEvent :=
  { linkId := b.linkId
    timestamp := now
    ip := b.ip.getD ""
    country := b.country.getD ""
    city := b.city.getD ""
    device := b.device.getD ""
    browser := b.browser.getD ""
    os := b.os.getD ""
    referrer := b.referrer.getD ""
    utmSource := b.utmSource
    utmMedium := b.utmMedium
    utmCampaign := b.utmCampaign }

inductive PostClickResponse where
  | notFound
  | serverError
  | created (ev : ClickEvent)
  deriving Repr, DecidableEq

def postClickStatus : PostClickResponse → Nat
  | PostClickResponse.notFound => 404
  | PostClickResponse.serverError => 500
  | PostClickResponse.created _ => 201

/-- The `POST /clicks` handler: verify the link exists (404 otherwise), then
run `ClickEvent.create` on the body.  A body missing a schema-required field
makes `create` reject; the route's catch forwards that error (`next(error)`,
a generic 500 envelope) and no event is stored.  Otherwise the created
record is answered with 201. -/
def handlePostClick (links : List Link) (store : List ClickEvent) (b : ClickBody)
    (now : Int) : PostClickResponse × List ClickEvent :=
  match findById links b.linkId with
  | none => (PostClickResponse.notFound, store)
  | some _ =>
      if clickBodyValid b then
        let ev := clickFromBody b now
        (PostClickResponse.created ev, store ++ [ev])
      else (PostClickResponse.serverError, store)

/-! ### Concrete instances used to exercise the theorems -/

/-- Benign external operations: a geo database with no entries, a
user-agent parser returning an empty result, a persistence layer that
always succeeds. -/
def demoEffects : TrackEffects :=
  { geoLookup := fun _ => Except.ok none
    uaParse := fun _ => Except.ok {}
    persist := fun _ => Except.ok () }

/-- External operations that all fail. -/
def failEffects : TrackEffects :=
  { geoLookup := fun _ => Except.error "geo down"
    uaParse := fun _ => Except.error "ua down"
    persist := fun _ => Except.error "db down" }

/-- A geo database resolving every address to US / (no city) / CA. -/
def usLookup : String → Except String (Option GeoInfo) :=
  fun _ => Except.ok (some ⟨"US", "", "CA"⟩)

def demoExpiredLink : Link :=
  { id := 1, slug := "old", destinationUrl := "https://example.com/old",
    expiresAt := some 5, passwordProtected := true, password := some "pw" }

def demoProtectedLink : Link :=
  { id := 2, slug := "pp", destinationUrl := "https://example.com/pp",
    passwordProtected := true, password := some "pw" }

def reqWithPassword : Req := { query := [("password", "pw")] }

/-- A `POST /clicks` body carrying all schema-required fields. -/
def validClickBody : ClickBody :=
  { linkId := 2, ip := some "1.2.3.4", device := some "iPhone",
    browser := some "Safari 17", os := some "iOS 17",
    referrer := some "https://news.example" }

def demoClick (t : Int) : ClickEvent := { linkId := 1, timestamp := t }

/-- Six click events of link 1, inserted in chronological order. -/
def demoStore : List ClickEvent :=
  [demoClick 1, demoClick 2, demoClick 3, demoClick 4, demoClick 5, demoClick 6]

/-- A click whose referrer is the literal string `"Direct"`. -/
def directReferrerClick : ClickEvent := { linkId := 1, referrer := "Direct" }

def clickA : ClickEvent :=
  { linkId := 1, country := "US", device := "iPhone", browser := "Safari 17" }

def clickB : ClickEvent :=
  { linkId := 1, country := "DE", device := "Desktop (Linux)", browser := "Firefox 120",
    referrer := "https://news.example" }

/-! ### Frequency-map lemmas -/

theorem getCount_bump (acc : List (String × Nat)) (k0 k : String) :
    getCount (bump acc k0) k = getCount acc k + (if k0 = k then 1 else 0) := by
  induction acc with
  | nil => by_cases h : k0 = k <;> simp [bump, getCount, h]
  | cons p rest ih =>
    obtain ⟨k1, n⟩ := p
    by_cases h1 : k1 = k0
    · subst h1
      by_cases h2 : k1 = k <;> simp [bump, getCount, h2]
    · by_cases h2 : k1 = k
      · have h3 : ¬k0 = k := fun hh => h1 (h2.trans hh.symm)
        have h4 : ¬k = k0 := fun hh => h3 hh.symm
        simp [bump, getCount, h1, h2, h3, h4]
      · simp [bump, getCount, h1, h2, ih]

theorem getCount_foldl (f : ClickEvent → String) (clicks : List ClickEvent)
    (acc : List (String × Nat)) (k : String) :
    getCount (clicks.foldl (fun a c => bump a (f c)) acc) k
      = getCount acc k + clicks.countP (fun c => f c == k) := by
  induction clicks generalizing acc with
  | nil => simp
  | cons c cs ih =>
    rw [List.foldl_cons, ih, getCount_bump, List.countP_cons]
    by_cases h : f c = k
    all_goals simp [h]
    all_goals omega

/-- A breakdown map answers, at every key, the number of events mapped to
that key. -/
theorem getCount_breakdownBy (f : ClickEvent → String) (clicks : List ClickEvent)
    (k : String) :
    getCount (breakdownBy f clicks) k = clicks.countP (fun c => f c == k) := by
  simpa [breakdownBy, getCount] using getCount_foldl f clicks [] k

theorem valsSum_bump (acc : List (String × Nat)) (k0 : String) :
    valsSum (bump acc k0) = valsSum acc + 1 := by
  induction acc with
  | nil => simp [bump, valsSum]
  | cons p rest ih =>
    obtain ⟨k1, n⟩ := p
    by_cases h : k1 = k0
    · simp [bump, h, valsSum]
      omega
    · simp [bump, h, valsSum] at ih ⊢
      omega

theorem valsSum_foldl (f : ClickEvent → String) (clicks : List ClickEvent)
    (acc : List (String × Nat)) :
    valsSum (clicks.foldl (fun a c => bump a (f c)) acc)
      = valsSum acc + clicks.length := by
  induction clicks generalizing acc with
  | nil => simp
  | cons c cs ih =>
    rw [List.foldl_cons, ih, valsSum_bump, List.length_cons]
    omega

/-- The counts of a breakdown map sum to the number of events. -/
theorem valsSum_breakdownBy (f : ClickEvent → String) (clicks : List ClickEvent) :
    valsSum (breakdownBy f clicks) = clicks.length := by
  simpa [breakdownBy, valsSum] using valsSum_foldl f clicks []

/-- Breakdown lookups are invariant under permutation of the event list. -/
theorem getCount_breakdownBy_perm (f : ClickEvent → String)
    {clicks clicks2 : List ClickEvent} (h : clicks.Perm clicks2) (k : String) :
    getCount (breakdownBy f clicks) k = getCount (breakdownBy f clicks2) k := by
  rw [getCount_breakdownBy, getCount_breakdownBy]
  exact h.countP_eq _

/-- Splitting the `"Direct"` count of the referrer breakdown into the
empty-referrer events and the events whose referrer is literally
`"Direct"`. -/
theorem countP_referrerKey_direct (clicks : List ClickEvent) :
    clicks.countP (fun c => referrerKey c == "Direct")
      = clicks.countP (fun c => c.referrer == "")
        + clicks.countP (fun c => c.referrer == "Direct") := by
  induction clicks with
  | nil => simp
  | cons c cs ih =>
    rw [List.countP_cons, List.countP_cons, List.countP_cons, ih]
    by_cases h1 : c.referrer = ""
    · simp [referrerKey, h1]
      omega
    · by_cases h2 : c.referrer = "Direct"
      · simp [referrerKey, h1, h2]
        omega
      · simp [referrerKey, h1, h2]

/-! ### Redirect-handler lemmas -/

/-- The response of the domain route does not depend on the tracking
effects. -/
theorem handleRedirectDomain_resp_indep (eff eff2 : TrackEffects)
    (links : List Link) (store : List ClickEvent) (domain slug : String)
    (req : Req) (now : Int) :
    (handleRedirectDomain eff links store domain slug req now).1
      = (handleRedirectDomain eff2 links store domain slug req now).1 := by
  unfold handleRedirectDomain
  cases findOneByDomainSlug links domain slug with
  | none => rfl
  | some link =>
    cases htr : trackClickEvent eff req link now <;>
    cases htr2 : trackClickEvent eff2 req link now <;>
    cases h1 : isExpired link now <;>
    cases h2 : link.passwordProtected <;>
    cases h3 : passwordPasses link req <;>
    simp [h1, h2, h3, htr, htr2]

/-- The response of the slug-only route does not depend on the tracking
effects. -/
theorem handleRedirectSlug_resp_indep (eff eff2 : TrackEffects)
    (links : List Link) (store : List ClickEvent) (slug : String)
    (req : Req) (now : Int) :
    (handleRedirectSlug eff links store slug req now).1
      = (handleRedirectSlug eff2 links store slug req now).1 := by
  unfold handleRedirectSlug
  cases findOneBySlug links slug with
  | none => rfl
  | some link =>
    cases htr : trackClickEvent eff req link now <;>
    cases htr2 : trackClickEvent eff2 req link now <;>
    cases h1 : isExpired link now <;>
    cases h2 : link.passwordProtected <;>
    cases h3 : passwordPasses link req <;>
    simp [h1, h2, h3, htr, htr2]

/-- A successfully recorded click event references the looked-up link. -/
theorem trackClickEventBody_linkId (eff : TrackEffects) (req : Req) (link : Link)
    (now : Int) (ev : ClickEvent)
    (h : trackClickEventBody eff req link now = Except.ok ev) :
    ev.linkId = link.id := by
  unfold trackClickEventBody at h
  cases hg : resolveGeoE eff.geoLookup (resolveIp req) with
  | error e => rw [hg] at h; cases h
  | ok geo =>
    rw [hg] at h
    cases hu : eff.uaParse (match req.userAgent with | some s => s | none => "") with
    | error e => rw [hu] at h; cases h
    | ok ua =>
      rw [hu] at h
      cases hp : eff.persist (buildClickEvent geo ua req link now (resolveIp req)) with
      | error e => simp [hp] at h
      | ok u =>
        simp [hp] at h
        rw [← h]
        rfl

/-! ### Claim theorems -/

/-- Claim C1: for every link whose `expiresAt` is set and in the past, a
redirect request — on the domain route or the slug-only route, with any
query parameters (so with or without a password) and any `passwordProtected`
flag — fails with Expired (HTTP 410), the store untouched: the expiry check
runs before the password check. -/
theorem expired_link_always_yields_expired (eff : TrackEffects) (links : List Link)
    (store : List ClickEvent) (domain slug : String) (req : Req) (now : Int)
    (link : Link) (e : Int) (hset : link.expiresAt = some e) (hpast : e < now) :
    (findOneByDomainSlug links domain slug = some link →
      handleRedirectDomain eff links store domain slug req now
        = (RedirectResponse.expired, store)) ∧
    (findOneBySlug links slug = some link →
      handleRedirectSlug eff links store slug req now
        = (RedirectResponse.expired, store)) ∧
    statusCode RedirectResponse.expired = 410 := by
  have hex : isExpired link now = true := by
    simp [isExpired, hset, hpast]
  refine ⟨fun hf => ?_, fun hf => ?_, rfl⟩
  · simp [handleRedirectDomain, hf, hex]
  · simp [handleRedirectSlug, hf, hex]

/-- Witness for C1 at a concrete expired, password-protected link with no
password supplied. -/
theorem expired_link_always_yields_expired_witness :
    handleRedirectDomain demoEffects [demoExpiredLink] [] "xpro.li" "old" {} 10
      = (RedirectResponse.expired, []) ∧
    handleRedirectSlug demoEffects [demoExpiredLink] [] "old" {} 10
      = (RedirectResponse.expired, []) :=
  have h := expired_link_always_yields_expired demoEffects [demoExpiredLink] []
    "xpro.li" "old" {} 10 (selectLink demoExpiredLink) 5 rfl (by decide)
  ⟨h.1 rfl, h.2.1 rfl⟩

/-- Claim C10: the expiry gate compares strictly: with `expiresAt` equal to
the evaluation instant or in the future, the link does not count as expired
and neither route answers Expired. -/
theorem expiry_comparison_is_strict (eff : TrackEffects) (links : List Link)
    (store : List ClickEvent) (domain slug : String) (req : Req) (now : Int)
    (link : Link) (e : Int) (hset : link.expiresAt = some e) (hnotpast : now ≤ e) :
    isExpired link now = false ∧
    (findOneByDomainSlug links domain slug = some link →
      (handleRedirectDomain eff links store domain slug req now).1
        ≠ RedirectResponse.expired) ∧
    (findOneBySlug links slug = some link →
      (handleRedirectSlug eff links store slug req now).1
        ≠ RedirectResponse.expired) := by
  have hex : isExpired link now = false := by
    simp [isExpired, hset]
    omega
  refine ⟨hex, fun hf => ?_, fun hf => ?_⟩
  · cases htr : trackClickEvent eff req link now <;>
    cases h2 : link.passwordProtected <;>
    cases h3 : passwordPasses link req <;>
    simp [handleRedirectDomain, hf, hex, htr, h2, h3]
  · cases htr : trackClickEvent eff req link now <;>
    cases h2 : link.passwordProtected <;>
    cases h3 : passwordPasses link req <;>
    simp [handleRedirectSlug, hf, hex, htr, h2, h3]

/-- Witness for C10: a link expiring exactly at the evaluation instant is not
expired (the request then falls through to the password gate). -/
theorem expiry_comparison_is_strict_witness :
    isExpired demoExpiredLink 5 = false ∧
    (handleRedirectDomain demoEffects [demoExpiredLink] [] "xpro.li" "old" {} 5).1
      ≠ RedirectResponse.expired :=
  have h := expiry_comparison_is_strict demoEffects [demoExpiredLink] []
    "xpro.li" "old" {} 5 (selectLink demoExpiredLink) 5 rfl (by decide)
  ⟨h.1, h.2.1 rfl⟩

/-- Every link the domain-route lookup returns carries no password field:
the `select: false` projection strips it. -/
theorem findOneByDomainSlug_password_none (links : List Link)
    (domain slug : String) (link : Link)
    (h : findOneByDomainSlug links domain slug = some link) :
    link.password = none := by
  rw [findOneByDomainSlug] at h
  cases hf : links.find? (fun l => l.domain == domain && l.slug == slug) with
  | none => rw [hf] at h; cases h
  | some l0 =>
      rw [hf, Option.map_some'] at h
      injection h with h3
      rw [← h3]
      rfl

/-- Every link the slug-only lookup returns carries no password field. -/
theorem findOneBySlug_password_none (links : List Link) (slug : String)
    (link : Link) (h : findOneBySlug links slug = some link) :
    link.password = none := by
  rw [findOneBySlug] at h
  cases hf : links.find? (fun l => l.slug == slug) with
  | none => rw [hf] at h; cases h
  | some l0 =>
      rw [hf, Option.map_some'] at h
      injection h with h3
      rw [← h3]
      rfl

/-- Because the lookups never return the password, the gate compares the
supplied password against `undefined`: a password-protected, non-expired
link answers PasswordRequired on every request, whatever password the
request carries, and records nothing. -/
theorem protected_link_always_password_required (eff : TrackEffects)
    (links : List Link) (store : List ClickEvent) (domain slug : String)
    (req : Req) (now : Int) (link : Link)
    (hnexp : isExpired link now = false)
    (hprot : link.passwordProtected = true) :
    (findOneByDomainSlug links domain slug = some link →
      handleRedirectDomain eff links store domain slug req now
        = (RedirectResponse.passwordRequired, store)) ∧
    (findOneBySlug links slug = some link →
      handleRedirectSlug eff links store slug req now
        = (RedirectResponse.passwordRequired, store)) := by
  constructor
  · intro hfind
    have hpw : link.password = none :=
      findOneByDomainSlug_password_none links domain slug link hfind
    have hpass : passwordPasses link req = false := by
      unfold passwordPasses
      cases hq : req.queryGet "password" with
      | none => rfl
      | some p => by_cases hp : p = "" <;> simp [hp, hpw]
    simp [handleRedirectDomain, hfind, hnexp, hprot, hpass]
  · intro hfind
    have hpw : link.password = none :=
      findOneBySlug_password_none links slug link hfind
    have hpass : passwordPasses link req = false := by
      unfold passwordPasses
      cases hq : req.queryGet "password" with
      | none => rfl
      | some p => by_cases hp : p = "" <;> simp [hp, hpw]
    simp [handleRedirectSlug, hfind, hnexp, hprot, hpass]

/-- Claim C2: refuted by the code — the Link schema declares `password` with
`select: false`, so `Link.findOne` in the redirect routes returns the link
without its password and the gate compares the supplied password against
`undefined`.  At the failing input the stored password is `"pw"`, the
request supplies `password=pw` — exactly equal — yet both routes answer
PasswordRequired (401) and record no ClickEvent. -/
theorem correct_password_still_rejected :
    demoProtectedLink.password = some "pw" ∧
    demoProtectedLink.passwordProtected = true ∧
    Req.queryGet reqWithPassword "password" = some "pw" ∧
    findOneByDomainSlug [demoProtectedLink] "xpro.li" "pp"
      = some (selectLink demoProtectedLink) ∧
    (selectLink demoProtectedLink).password = none ∧
    isExpired demoProtectedLink 10 = false ∧
    handleRedirectDomain demoEffects [demoProtectedLink] [] "xpro.li" "pp"
        reqWithPassword 10
      = (RedirectResponse.passwordRequired, []) ∧
    handleRedirectSlug demoEffects [demoProtectedLink] [] "pp"
        reqWithPassword 10
      = (RedirectResponse.passwordRequired, []) ∧
    statusCode RedirectResponse.passwordRequired = 401 ∧
    jsonError RedirectResponse.passwordRequired
      = some ("error", "Password required") :=
  ⟨rfl, rfl, rfl, rfl, rfl, rfl, rfl, rfl, rfl, rfl⟩

/-- Claim C3: the Click Recorder never raises to its caller — any failure of
the body (geo resolution, user-agent parsing, or persistence) is absorbed
into a `none` result — and the redirect response of either route is
literally independent of the external tracking operations. -/
theorem tracking_failures_never_propagate (eff eff2 : TrackEffects) (req : Req)
    (link : Link) (now : Int) (links : List Link) (store : List ClickEvent)
    (domain slug : String) :
    (∀ msg, trackClickEventBody eff req link now = Except.error msg →
      trackClickEvent eff req link now = none) ∧
    (∀ ev, trackClickEventBody eff req link now = Except.ok ev →
      trackClickEvent eff req link now = some ev) ∧
    (handleRedirectDomain eff links store domain slug req now).1
      = (handleRedirectDomain eff2 links store domain slug req now).1 ∧
    (handleRedirectSlug eff links store slug req now).1
      = (handleRedirectSlug eff2 links store slug req now).1 :=
  ⟨fun msg h => by simp [trackClickEvent, h],
   fun ev h => by simp [trackClickEvent, h],
   handleRedirectDomain_resp_indep eff eff2 links store domain slug req now,
   handleRedirectSlug_resp_indep eff eff2 links store slug req now⟩

/-- Witness for C3: with every external operation failing, tracking returns
`none`, and the redirect response equals the one obtained with healthy
operations. -/
theorem tracking_failures_never_propagate_witness :
    trackClickEvent failEffects {} demoProtectedLink 10 = none ∧
    (handleRedirectDomain failEffects [demoProtectedLink] [] "xpro.li" "pp"
        reqWithPassword 10).1
      = (handleRedirectDomain demoEffects [demoProtectedLink] [] "xpro.li" "pp"
        reqWithPassword 10).1 :=
  ⟨(tracking_failures_never_propagate failEffects demoEffects {} demoProtectedLink
      10 [] [] "xpro.li" "pp").1 "geo down" rfl,
   (tracking_failures_never_propagate failEffects demoEffects reqWithPassword
      demoProtectedLink 10 [demoProtectedLink] [] "xpro.li" "pp").2.2.1⟩

/-- Claim C4, evaluated at a store of six events of link 1 inserted in
chronological order: the analytics endpoint (`sort(-timestamp)` then
`slice(0,100)`) lists them most-recent first, but the listing endpoint
slices the UNSORTED `find` result, returning the five oldest events
(timestamps 1..5) instead of the five most recent (timestamps 6..2) its own
comment promises. -/
theorem listing_recent_clicks_not_sorted :
    (analyticsClicksList demoStore 1 none).map (fun c => c.timestamp)
      = [6, 5, 4, 3, 2, 1] ∧
    (listingRecentClicks demoStore 1).map (fun c => c.timestamp)
      = [1, 2, 3, 4, 5] ∧
    ((sortByTimestampDesc (clicksForLink demoStore 1)).take 5).map
        (fun c => c.timestamp)
      = [6, 5, 4, 3, 2] :=
  ⟨rfl, rfl, rfl⟩

/-- Claim C5, counterexample: one event whose referrer is the literal string
`"Direct"`.  It has no empty referrer (`N = 0`) yet the breakdown maps
`"Direct"` to 1, because defaulted empty referrers and literal `"Direct"`
referrers land on the same key. -/
theorem referrer_direct_counterexample :
    ([directReferrerClick].countP (fun c => c.referrer == "")) = 0 ∧
    getCount (referrerBreakdown [directReferrerClick]) "Direct" = 1 :=
  ⟨rfl, rfl⟩

/-- Claim C5 (amended): for every list of ClickEvents with `N` empty-referrer
events and `M` non-empty-referrer events, the referrer breakdown maps
`"Direct"` to `N` plus the number of events whose referrer is literally
`"Direct"` (so to exactly `N` whenever no stored referrer is the literal
string `"Direct"`), and the breakdown values always sum to `N + M`, which
equals `totalClicks`. -/
theorem referrer_direct_counts (clicks : List ClickEvent) :
    getCount (referrerBreakdown clicks) "Direct"
      = clicks.countP (fun c => c.referrer == "")
        + clicks.countP (fun c => c.referrer == "Direct") ∧
    valsSum (referrerBreakdown clicks)
      = clicks.countP (fun c => c.referrer == "")
        + clicks.countP (fun c => !(c.referrer == "")) ∧
    clicks.countP (fun c => c.referrer == "")
        + clicks.countP (fun c => !(c.referrer == ""))
      = totalClicks clicks := by
  have hlen : clicks.countP (fun c => c.referrer == "")
      + clicks.countP (fun c => !(c.referrer == "")) = clicks.length := by
    induction clicks with
    | nil => simp
    | cons c cs ih =>
      rw [List.countP_cons, List.countP_cons]
      by_cases h : c.referrer = ""
      all_goals simp [h]
      all_goals omega
  refine ⟨?_, ?_, hlen⟩
  · rw [referrerBreakdown, getCount_breakdownBy]
    exact countP_referrerKey_direct clicks
  · rw [referrerBreakdown, valsSum_breakdownBy, hlen]

/-- Claim C6: the unique counts equal the cardinality of the set of distinct
raw (pre-defaulting) country, device, and browser values of the event list;
any value — `"Unknown"` included — contributes exactly once. -/
theorem unique_counts_are_distinct_cardinalities (clicks : List ClickEvent) :
    uniqueCountries clicks = (clicks.map (fun c => c.country)).toFinset.card ∧
    uniqueDevices clicks = (clicks.map (fun c => c.device)).toFinset.card ∧
    uniqueBrowsers clicks = (clicks.map (fun c => c.browser)).toFinset.card := by
  refine ⟨?_, ?_, ?_⟩ <;>
    simp [uniqueCountries, uniqueDevices, uniqueBrowsers, List.card_toFinset]

/-- Claim C7: the aggregation is invariant under permutation of the event
list — the total, the three unique counts, and every key of all seven
breakdown maps agree between any two permutations. -/
theorem aggregation_perm_invariant (clicks clicks2 : List ClickEvent)
    (h : clicks.Perm clicks2) :
    totalClicks clicks = totalClicks clicks2 ∧
    uniqueCountries clicks = uniqueCountries clicks2 ∧
    uniqueDevices clicks = uniqueDevices clicks2 ∧
    uniqueBrowsers clicks = uniqueBrowsers clicks2 ∧
    (∀ k, getCount (referrerBreakdown clicks) k
      = getCount (referrerBreakdown clicks2) k) ∧
    (∀ k, getCount (countryBreakdown clicks) k
      = getCount (countryBreakdown clicks2) k) ∧
    (∀ k, getCount (deviceBreakdown clicks) k
      = getCount (deviceBreakdown clicks2) k) ∧
    (∀ k, getCount (browserBreakdown clicks) k
      = getCount (browserBreakdown clicks2) k) ∧
    (∀ k, getCount (utmSourceBreakdown clicks) k
      = getCount (utmSourceBreakdown clicks2) k) ∧
    (∀ k, getCount (utmMediumBreakdown clicks) k
      = getCount (utmMediumBreakdown clicks2) k) ∧
    (∀ k, getCount (utmCampaignBreakdown clicks) k
      = getCount (utmCampaignBreakdown clicks2) k) := by
  refine ⟨h.length_eq, ?_, ?_, ?_,
    fun k => getCount_breakdownBy_perm referrerKey h k,
    fun k => getCount_breakdownBy_perm countryKey h k,
    fun k => getCount_breakdownBy_perm deviceKey h k,
    fun k => getCount_breakdownBy_perm browserKey h k,
    fun k => getCount_breakdownBy_perm utmSourceKey h k,
    fun k => getCount_breakdownBy_perm utmMediumKey h k,
    fun k => getCount_breakdownBy_perm utmCampaignKey h k⟩
  · show (clicks.map (fun c => c.country)).dedup.length
      = (clicks2.map (fun c => c.country)).dedup.length
    exact ((h.map _).dedup).length_eq
  · show (clicks.map (fun c => c.device)).dedup.length
      = (clicks2.map (fun c => c.device)).dedup.length
    exact ((h.map _).dedup).length_eq
  · show (clicks.map (fun c => c.browser)).dedup.length
      = (clicks2.map (fun c => c.browser)).dedup.length
    exact ((h.map _).dedup).length_eq

/-- Witness for C7 on a two-element permutation. -/
theorem aggregation_perm_invariant_witness :
    totalClicks [clickA, clickB] = totalClicks [clickB, clickA] ∧
    uniqueCountries [clickA, clickB] = uniqueCountries [clickB, clickA] ∧
    getCount (referrerBreakdown [clickA, clickB]) "Direct"
      = getCount (referrerBreakdown [clickB, clickA]) "Direct" :=
  have h := aggregation_perm_invariant [clickA, clickB] [clickB, clickA]
    (List.Perm.swap clickB clickA [])
  ⟨h.1, h.2.1, h.2.2.2.2.1 "Direct"⟩

/-- Claim C8: a local client address (`"::1"`, or any address starting with
`"127.0.0.1"`) resolves to exactly
`{country: "Local", city: "Development", region: "Local"}` independently of
the geo-IP lookup (which is not consulted); for a non-local address the
lookup runs, a null result gives all `"Unknown"`, and any field the lookup
leaves empty defaults to `"Unknown"`. -/
theorem geo_resolver_local_and_defaults
    (gl gl2 : String → Except String (Option GeoInfo)) (ip : String)
    (g : GeoInfo) :
    (ip = "::1" ∨ ip.startsWith "127.0.0.1" = true →
      resolveGeoE gl ip = Except.ok ⟨"Local", "Development", "Local"⟩
      ∧ resolveGeoE gl ip = resolveGeoE gl2 ip) ∧
    (isLocalIp ip = false → gl ip = Except.ok (some g) →
      resolveGeoE gl ip
        = Except.ok ⟨orUnknown g.country, orUnknown g.city, orUnknown g.region⟩) ∧
    (isLocalIp ip = false → gl ip = Except.ok none →
      resolveGeoE gl ip = Except.ok ⟨"Unknown", "Unknown", "Unknown"⟩) ∧
    orUnknown "" = "Unknown" := by
  refine ⟨fun hloc => ?_, fun hnl hg => ?_, fun hnl hg => ?_, rfl⟩
  · have hl : isLocalIp ip = true := by
      rcases hloc with h | h <;> simp [isLocalIp, h]
    exact ⟨by simp [resolveGeoE, hl], by simp [resolveGeoE, hl]⟩
  · simp [resolveGeoE, hnl, hg, geoFromLookup, Except.map]
  · simp [resolveGeoE, hnl, hg, geoFromLookup, Except.map]

/-- Witness for C8: loopback rendered locally even under a failing lookup;
a non-local address through a lookup that leaves the city empty gets
`"Unknown"` there. -/
theorem geo_resolver_local_and_defaults_witness :
    resolveGeoE failEffects.geoLookup "::1"
      = Except.ok ⟨"Local", "Development", "Local"⟩ ∧
    resolveGeoE usLookup "8.8.8.8"
      = Except.ok ⟨"US", "Unknown", "CA"⟩ ∧
    resolveGeoE demoEffects.geoLookup "8.8.8.8"
      = Except.ok ⟨"Unknown", "Unknown", "Unknown"⟩ :=
  have h1 := geo_resolver_local_and_defaults failEffects.geoLookup
    demoEffects.geoLookup "::1" ⟨"", "", ""⟩
  have h2 := geo_resolver_local_and_defaults usLookup demoEffects.geoLookup
    "8.8.8.8" ⟨"US", "", "CA"⟩
  have h3 := geo_resolver_local_and_defaults demoEffects.geoLookup usLookup
    "8.8.8.8" ⟨"", "", ""⟩
  ⟨(h1.1 (Or.inl rfl)).1, h2.2.1 rfl rfl, h3.2.2.1 rfl rfl⟩

/-- Claim C9, counterexample: a `POST /clicks` body whose `linkId` names an
existing link but which omits the schema-required `ip`, `device`, `browser`
and `os` fields.  `ClickEvent.create` rejects it with a ValidationError, so
the response is the generic 500 error envelope — not 201 — and no ClickEvent
is stored. -/
theorem post_clicks_missing_required_counterexample :
    findById [demoProtectedLink] 2 = some (selectLink demoProtectedLink) ∧
    handlePostClick [demoProtectedLink] [] { linkId := 2, referrer := some "x" } 7
      = (PostClickResponse.serverError, []) ∧
    postClickStatus PostClickResponse.serverError = 500 :=
  ⟨rfl, rfl, rfl⟩

/-- Claim C9 (amended): `POST /clicks` with a `linkId` matching no stored
link answers NotFound (404) and leaves the click-event store unchanged; with
an existing `linkId` and a body carrying the schema-required fields
(non-empty `ip`, `device`, `browser`, `os`) it appends exactly one
ClickEvent built directly from the body fields and answers 201 with that
record; with an existing `linkId` but a body missing a required field,
creation fails, a generic server error (500) is answered and the store is
unchanged. -/
theorem post_clicks_validates_link_and_body (links : List Link)
    (store : List ClickEvent) (b : ClickBody) (now : Int) :
    (findById links b.linkId = none →
      handlePostClick links store b now = (PostClickResponse.notFound, store)
      ∧ postClickStatus PostClickResponse.notFound = 404) ∧
    (∀ link, findById links b.linkId = some link → clickBodyValid b = true →
      handlePostClick links store b now
        = (PostClickResponse.created (clickFromBody b now),
            store ++ [clickFromBody b now])
      ∧ (clickFromBody b now).linkId = b.linkId
      ∧ postClickStatus (PostClickResponse.created (clickFromBody b now)) = 201) ∧
    (∀ link, findById links b.linkId = some link → clickBodyValid b = false →
      handlePostClick links store b now = (PostClickResponse.serverError, store)
      ∧ postClickStatus PostClickResponse.serverError = 500) :=
  ⟨fun h => ⟨by simp [handlePostClick, h], rfl⟩,
   fun link h hv => ⟨by simp [handlePostClick, h, hv], rfl, rfl⟩,
   fun link h hv => ⟨by simp [handlePostClick, h, hv], rfl⟩⟩

/-- Witness for C9: an unknown `linkId` is rejected with the store
unchanged; a known one with a schema-complete body creates exactly the
body-derived event; a known one with an incomplete body yields the server
error leaving the store unchanged. -/
theorem post_clicks_validates_link_and_body_witness :
    handlePostClick [demoProtectedLink] demoStore { linkId := 99 } 7
      = (PostClickResponse.notFound, demoStore) ∧
    handlePostClick [demoProtectedLink] [] validClickBody 7
      = (PostClickResponse.created (clickFromBody validClickBody 7),
         [clickFromBody validClickBody 7]) ∧
    handlePostClick [demoProtectedLink] demoStore { linkId := 2 } 7
      = (PostClickResponse.serverError, demoStore) :=
  have h1 := post_clicks_validates_link_and_body [demoProtectedLink] demoStore
    { linkId := 99 } 7
  have h2 := post_clicks_validates_link_and_body [demoProtectedLink] []
    validClickBody 7
  have h3 := post_clicks_validates_link_and_body [demoProtectedLink] demoStore
    { linkId := 2 } 7
  ⟨(h1.1 rfl).1,
   by
    have := (h2.2.1 (selectLink demoProtectedLink) rfl rfl).1
    simpa using this,
   (h3.2.2 (selectLink demoProtectedLink) rfl rfl).1⟩

end Xproli
